import Mathlib

/-!
# SafetyMapper — verification of the spec against `src/safetymapper.py`

This file shallowly embeds the algorithmic core of the SafetyMapper
application (content moderator, route-segment risk classifier, incident
proximity counters, safety-score calculator, incident store/read adapters)
and settles the frozen claims about it.

Modelling conventions:
* Python floats are modelled as rationals (`ℚ`); the arithmetic appearing in
  the program (additions, multiplications by decimal literals, divisions,
  `min`/`max` and comparisons) is exact over `ℚ` for the decimal inputs the
  program manipulates.  IEEE-special values (`inf`/`nan`) are outside the
  model.
* Python strings are `String`; messages handled by the program are ASCII, so
  `Char.toLower`/`Char.toUpper` agree with Python's `str.lower`/`str.upper`.
* `x in s` (substring test) is `pyContains`; dictionary `.get` with a default
  is `Option.getD`; Python truthiness of an optional string / number is made
  explicit (`pyTruthyStr`, `pyTruthyNum`).
* The only square root in the program occurs in `calculate_distance`; the
  program immediately compares it against a radius.  `nearQ` embeds that
  comparison inside `ℚ` (`0 ≤ r ∧ d² ≤ r²`), and `calculate_distance_le_iff`
  proves it equivalent to the real-valued comparison `√d² ≤ r`.
-/

/-- Python `str.lower` (the program's messages are ASCII). -/
def pyLower (s : String) : String :=
  String.mk (s.data.map Char.toLower)

/-- Python `str.upper` (the program's messages are ASCII). -/
def pyUpper (s : String) : String :=
  String.mk (s.data.map Char.toUpper)

/-- Python `s[:n]` on a string. -/
def pyTake (s : String) (n : ℕ) : String :=
  String.mk (s.data.take n)

/-- Python `sep.join(xs)`. -/
def pyJoin (sep : String) (xs : List String) : String :=
  String.mk (sep.data.intercalate (xs.map String.data))

/-- Python `needle in haystack` (substring containment) on strings. -/
def pyContains (needle haystack : String) : Bool :=
  (List.range (haystack.data.length + 1)).any
    (fun i => needle.data.isPrefixOf (haystack.data.drop i))

/-- Python truthiness of an optional string (`None` and `""` are falsy). -/
def pyTruthyStr (o : Option String) : Bool :=
  match o with
  | none => false
  | some s => decide (s.data.length ≠ 0)

/-- Python truthiness of an optional number (`None` and `0` are falsy). -/
def pyTruthyNum (o : Option ℚ) : Bool :=
  match o with
  | none => false
  | some q => decide (q ≠ 0)

/-- Python `\w` word character (`[A-Za-z0-9_]`; the messages are ASCII). -/
def isWordChar (c : Char) : Bool :=
  c.isAlphanum || c = '_'

/-- Python `\s` whitespace class (space, tab, LF, CR, VT, FF). -/
def pySpace (c : Char) : Bool :=
  [32, 9, 10, 13, 11, 12].contains c.toNat

/-- Whether position `i` of the character list holds a word character. -/
def wordAt (cs : List Char) (i : ℕ) : Bool :=
  match cs.get? i with
  | some c => isWordChar c
  | none => false

/-- Python regex `\b` word boundary between positions `i-1` and `i`. -/
def boundaryAt (cs : List Char) (i : ℕ) : Bool :=
  Bool.xor (if i = 0 then false else wordAt cs (i - 1)) (wordAt cs i)

/-- All characters of the half-open slice `[a, b)` satisfy `p`. -/
def sliceAll (cs : List Char) (a b : ℕ) (p : Char → Bool) : Bool :=
  ((cs.drop a).take (b - a)).all p

/-- Character class `[A-Za-z0-9._%+-]` (local part of the e-mail regex). -/
def emailLocalChar (c : Char) : Bool :=
  c.isAlphanum || c = '.' || c = '_' || c = '%' || c = '+' || c = '-'

/-- Character class `[A-Za-z0-9.-]` (domain part of the e-mail regex). -/
def emailDomainChar (c : Char) : Bool :=
  c.isAlphanum || c = '.' || c = '-'

/-- Character class `[A-Z|a-z]` (top-level part of the e-mail regex; the
source regex literally includes the `|` character in the class). -/
def emailTopChar (c : Char) : Bool :=
  c.isAlpha || c = '|'

/-- `re.search` of `\b[A-Za-z0-9._%+-]+@[A-Za-z0-9.-]+\.[A-Z|a-z]{2,}\b`:
a match exists iff the string can be decomposed as word-boundary, a nonempty
local part, `@`, a nonempty domain part, `.`, a top part of length ≥ 2 and a
closing word boundary. -/
def emailSearch (s : String) : Bool :=
  let cs := s.data
  let n := cs.length
  (List.range (n + 1)).any fun a =>
    (List.range (n + 1)).any fun p1 =>
      (List.range (n + 1)).any fun p2 =>
        (List.range (n + 1)).any fun e =>
          decide (a < p1) && decide (p1 + 1 < p2) && decide (p2 + 3 ≤ e) &&
          decide (e ≤ n) &&
          boundaryAt cs a && boundaryAt cs e &&
          sliceAll cs a p1 emailLocalChar &&
          (cs.get? p1 == some '@') &&
          sliceAll cs (p1 + 1) p2 emailDomainChar &&
          (cs.get? p2 == some '.') &&
          sliceAll cs (p2 + 1) e emailTopChar

/-- `k` consecutive digits starting at position `i`. -/
def digitRun (cs : List Char) (i k : ℕ) : Bool :=
  decide (i + k ≤ cs.length) && sliceAll cs i (i + k) Char.isDigit

/-- Character at `i` is one of `-` `.` (the phone-number separator class). -/
def phoneSep (cs : List Char) (i : ℕ) : Bool :=
  match cs.get? i with
  | some c => c = '-' || c = '.'
  | none => false

/-- Character at `i` is one of `-` or whitespace (the card separator class). -/
def cardSep (cs : List Char) (i : ℕ) : Bool :=
  match cs.get? i with
  | some c => c = '-' || pySpace c
  | none => false

/-- `re.search` of `\b\d{3}[-.]?\d{3}[-.]?\d{4}\b`. -/
def phoneSearch (s : String) : Bool :=
  let cs := s.data
  let n := cs.length
  (List.range (n + 1)).any fun a =>
    [false, true].any fun s1 =>
      [false, true].any fun s2 =>
        let b1 := a + 3
        let b2 := b1 + (if s1 then 1 else 0)
        let b3 := b2 + 3
        let b4 := b3 + (if s2 then 1 else 0)
        let e := b4 + 4
        digitRun cs a 3 &&
        (if s1 then phoneSep cs b1 else true) &&
        digitRun cs b2 3 &&
        (if s2 then phoneSep cs b3 else true) &&
        digitRun cs b4 4 &&
        boundaryAt cs a && boundaryAt cs e

/-- `re.search` of `\b\d{3}-\d{2}-\d{4}\b`. -/
def ssnSearch (s : String) : Bool :=
  let cs := s.data
  let n := cs.length
  (List.range (n + 1)).any fun a =>
    digitRun cs a 3 &&
    (cs.get? (a + 3) == some '-') &&
    digitRun cs (a + 4) 2 &&
    (cs.get? (a + 6) == some '-') &&
    digitRun cs (a + 7) 4 &&
    boundaryAt cs a && boundaryAt cs (a + 11)

/-- `re.search` of `\b\d{4}[-\s]?\d{4}[-\s]?\d{4}[-\s]?\d{4}\b`. -/
def cardSearch (s : String) : Bool :=
  let cs := s.data
  let n := cs.length
  (List.range (n + 1)).any fun a =>
    [false, true].any fun s1 =>
      [false, true].any fun s2 =>
        [false, true].any fun s3 =>
          let b1 := a + 4
          let b2 := b1 + (if s1 then 1 else 0)
          let b3 := b2 + 4
          let b4 := b3 + (if s2 then 1 else 0)
          let b5 := b4 + 4
          let b6 := b5 + (if s3 then 1 else 0)
          let e := b6 + 4
          digitRun cs a 4 &&
          (if s1 then cardSep cs b1 else true) &&
          digitRun cs b2 4 &&
          (if s2 then cardSep cs b3 else true) &&
          digitRun cs b4 4 &&
          (if s3 then cardSep cs b5 else true) &&
          digitRun cs b6 4 &&
          boundaryAt cs a && boundaryAt cs e

/-!
## Content moderator (`VertexAISafetyModerator`)

The external generative-language call made inside `_check_content_safety`
is modelled by an oracle value: `GeminiOutcome.ok t` is a successful
`generate_content` call whose `response.text` is `t` (`""` models a falsy
`response.text`), and `GeminiOutcome.err e` is a call raising an exception
whose text is `e`.
-/

/-- Outcome of the external Gemini call inside `_check_content_safety`. -/
inductive GeminiOutcome where
  | ok (text : String)
  | err (emsg : String)
deriving DecidableEq

/-- The `{blocked, category, reason, confidence}` dict each `_check_*` layer
returns. -/
structure LayerResult where
  blocked : Bool
  category : String
  reason : String
  confidence : ℚ
deriving DecidableEq

/-- One entry of the verdict's `violations` list. -/
structure Violation where
  type : String
  score : ℚ
  threshold : ℚ
  reason : String
deriving DecidableEq

/-- The moderation verdict dict.  `blocked_categories` and
`safety_layers_checked` are `Option`s because the `basic_fallback` dict does
not contain those keys.  The `timestamp` key (wall-clock string) is omitted:
it is an environment reading that no claim concerns. -/
structure Verdict where
  blocked : Bool
  max_score : ℚ
  violations : List Violation
  scores : List (String × ℚ)
  message_length : ℕ
  method : String
  blocked_categories : Option (List String)
  risk_assessment : String
  safety_layers_checked : Option (List String)
deriving DecidableEq

/-- `dangerous_keywords` of `_check_content_safety`. -/
def dangerous_keywords : List String :=
  ["bomb", "explosive", "weapon", "gun", "shoot", "kill", "murder", "suicide",
   "terrorist", "attack", "hack", "steal", "rob", "drug", "illegal"]

/-- `_check_content_safety`: dangerous-keyword scan first (short-circuits the
external call), then the external SAFE/UNSAFE probe; exceptions whose text
mentions a safety word are an implicit block, other exceptions are
inconclusive. -/
def check_content_safety (oracle : GeminiOutcome) (message : String) : LayerResult :=
  let ml := pyLower message
  if dangerous_keywords.any (fun k => pyContains k ml) then
    ⟨true, "CONTENT_SAFETY", "Dangerous content detected", 9/10⟩
  else
    match oracle with
    | GeminiOutcome.ok t =>
        if decide (t.data.length ≠ 0) && pyContains "UNSAFE" (pyUpper t) then
          ⟨true, "CONTENT_SAFETY", "Content deemed unsafe by Gemini", 4/5⟩
        else
          ⟨false, "CONTENT_SAFETY", "Content passed safety filters", 9/10⟩
    | GeminiOutcome.err e =>
        if ["safety", "blocked", "harmful", "inappropriate"].any
            (fun w => pyContains w (pyLower e)) then
          ⟨true, "CONTENT_SAFETY",
            "Blocked by Vertex AI safety filters: " ++ pyTake e 100, 9/10⟩
        else
          ⟨false, "CONTENT_SAFETY", "Safety check inconclusive", 1/10⟩

/-- Allow-list of `_check_brand_safety`. -/
def brand_safety_keywords : List String :=
  ["safe", "safety", "crime", "incident", "security", "danger", "risk",
   "police", "emergency", "help"]

/-- Profanity list of `_check_brand_safety`. -/
def inappropriate_words : List String :=
  ["fuck", "shit", "bitch", "asshole", "damn", "hell"]

/-- `_check_brand_safety`. -/
def check_brand_safety (message : String) : LayerResult :=
  let ml := pyLower message
  if brand_safety_keywords.any (fun k => pyContains k ml) then
    ⟨false, "BRAND_SAFETY", "Safety-related content aligns with brand values", 9/10⟩
  else if inappropriate_words.any (fun w => pyContains w ml) then
    ⟨true, "BRAND_SAFETY", "Inappropriate language detected", 4/5⟩
  else
    ⟨false, "BRAND_SAFETY", "Content aligns with brand values", 4/5⟩

/-- Allow-list of `_check_alignment`. -/
def alignment_safety_keywords : List String :=
  ["safe", "safety", "crime", "incident", "security", "danger", "risk",
   "police", "emergency", "help", "theft", "assault", "harassment",
   "vandalism", "suspicious", "neighborhood", "area", "location",
   "walk", "night", "day", "shopping", "downtown", "street",
   "rate", "statistics", "recent", "happened", "occurred"]

/-- Off-topic list of `_check_alignment`. -/
def off_topic_keywords : List String :=
  ["weather", "sports", "politics", "cooking", "recipe", "movie", "music"]

/-- `_check_alignment`. -/
def check_alignment (message : String) : LayerResult :=
  let ml := pyLower message
  if alignment_safety_keywords.any (fun k => pyContains k ml) then
    ⟨false, "ALIGNMENT", "Content relevant to safety context", 9/10⟩
  else if off_topic_keywords.any (fun k => pyContains k ml) then
    ⟨true, "ALIGNMENT", "Content not relevant to safety context", 3/5⟩
  else
    ⟨false, "ALIGNMENT", "Content relevant to safety context", 4/5⟩

/-- `injection_patterns` of `_check_security_privacy`. -/
def injection_patterns : List String :=
  ["ignore previous instructions", "system prompt", "you are now",
   "pretend to be", "act as if", "roleplay as"]

/-- Violation strings accumulated by `_check_security_privacy`, in source
order: e-mail, phone, SSN, card, then each matched injection pattern. -/
def security_violations (message : String) : List String :=
  let ml := pyLower message
  (if emailSearch message then ["Contains email address"] else []) ++
  (if phoneSearch message then ["Contains phone number"] else []) ++
  (if ssnSearch message then ["Contains SSN pattern"] else []) ++
  (if cardSearch message then ["Contains credit card pattern"] else []) ++
  (injection_patterns.filter (fun p => pyContains p ml)).map
    (fun p => "Potential prompt injection: " ++ p)

/-- `_check_security_privacy`. -/
def check_security_privacy (message : String) : LayerResult :=
  let violations := security_violations message
  if violations.length ≠ 0 then
    ⟨true, "SECURITY_PRIVACY",
      "Security/privacy violations: " ++ pyJoin ", " violations, 9/10⟩
  else
    ⟨false, "SECURITY_PRIVACY", "No security or privacy concerns detected", 9/10⟩

/-- The `safety_results` dict of `check_content`, as an association list in
its (insertion-ordered) key order. -/
def layer_pairs (oracle : GeminiOutcome) (message : String) :
    List (String × LayerResult) :=
  [("content_safety", check_content_safety oracle message),
   ("brand_safety", check_brand_safety message),
   ("alignment_check", check_alignment message),
   ("security_privacy", check_security_privacy message)]

/-- `_assess_risk_level`: note that the three category lists hold the
upper-case `category` names while `blocked_categories` is built from the
lower-case keys of `safety_results`. -/
def assess_risk_level (pairs : List (String × LayerResult)) : String :=
  let blockedCats := (pairs.filter (fun p => p.2.blocked)).map Prod.fst
  if ["CONTENT_SAFETY", "SECURITY_PRIVACY"].any (fun c => blockedCats.contains c) then
    "HIGH_RISK"
  else if ["BRAND_SAFETY"].any (fun c => blockedCats.contains c) then
    "MEDIUM_RISK"
  else if ["ALIGNMENT"].any (fun c => blockedCats.contains c) then
    "LOW_RISK"
  else
    "SAFE"

/-- `_evaluate_combined_results`. -/
def evaluate_combined_results (message : String)
    (pairs : List (String × LayerResult)) : Verdict :=
  let bl := pairs.filter (fun p => p.2.blocked)
  let violations : List Violation :=
    bl.map (fun p => ⟨p.2.category, p.2.confidence, 1/2, p.2.reason⟩)
  { blocked := decide (violations.length > 0)
    max_score := (bl.map (fun p => p.2.confidence)).foldl max 0
    violations := violations
    scores := violations.map (fun v => (v.type, v.score))
    message_length := message.data.length
    method := "vertex_ai_safety"
    blocked_categories := some (bl.map Prod.fst)
    risk_assessment := assess_risk_level pairs
    safety_layers_checked := some (pairs.map Prod.fst) }

/-- `critical_patterns` of `basic_content_check`, in dict insertion order. -/
def critical_patterns : List (String × List String) :=
  [("VIOLENCE", ["kill", "murder", "bomb", "terrorist", "weapon", "gun", "knife"]),
   ("HARASSMENT", ["hate", "racist", "nazi", "supremacist"]),
   ("PROFANITY", ["fuck", "shit", "bitch", "asshole", "damn"]),
   ("INAPPROPRIATE", ["hack", "illegal", "drugs", "steal"])]

/-- `basic_content_check`: per category, the first matching pattern (the
loop `break`s) contributes one violation with fixed score 0.8. -/
def basic_content_check (message : String) : Verdict :=
  let ml := pyLower message
  let violations : List Violation :=
    critical_patterns.filterMap (fun cp =>
      match cp.2.find? (fun p => pyContains p ml) with
      | some p => some ⟨cp.1, 4/5, 1/2, "Contains inappropriate word: " ++ p⟩
      | none => none)
  { blocked := decide (violations.length > 0)
    max_score := if violations.length > 0 then 4/5 else 0
    violations := violations
    scores := violations.map (fun v => (v.type, v.score))
    message_length := message.data.length
    method := "basic_fallback"
    blocked_categories := none
    risk_assessment := if violations.length > 0 then "HIGH_RISK" else "SAFE"
    safety_layers_checked := none }

/-- `check_content`.  `enabled = true` is the full Vertex-AI path; `enabled =
false` covers both fallback triggers (the moderator unconfigured, and the
outer `except` around the layered evaluation — the only exception source is
the external call, which the oracle already represents). -/
def check_content (enabled : Bool) (oracle : GeminiOutcome)
    (message : String) : Verdict :=
  if enabled then
    evaluate_combined_results message (layer_pairs oracle message)
  else
    basic_content_check message

/-!
## Moderator theorems (claims C2, C3, C4)
-/

/-- C2.  On the full (enabled) moderator path the combined verdict is blocked
iff at least one of the four layers blocked — but, contrary to the claim, the
risk tier is always `"SAFE"`: `_assess_risk_level` compares the upper-case
category names `CONTENT_SAFETY` / `SECURITY_PRIVACY` / `BRAND_SAFETY` /
`ALIGNMENT` against the lower-case keys of the `safety_results` dict
(`content_safety`, `brand_safety`, `alignment_check`, `security_privacy`), so
none of its three branches can ever fire. -/
theorem moderator_full_path_risk_always_safe (oracle : GeminiOutcome) (msg : String) :
    (check_content true oracle msg).blocked =
      ((check_content_safety oracle msg).blocked || (check_brand_safety msg).blocked ||
       (check_alignment msg).blocked || (check_security_privacy msg).blocked) ∧
    (check_content true oracle msg).risk_assessment = "SAFE" := by
  cases h1 : (check_content_safety oracle msg).blocked <;>
  cases h2 : (check_brand_safety msg).blocked <;>
  cases h3 : (check_alignment msg).blocked <;>
  cases h4 : (check_security_privacy msg).blocked <;>
    simp [check_content, evaluate_combined_results, layer_pairs, assess_risk_level,
      h1, h2, h3, h4, List.filter]

/-- C3.  A message containing `"bomb"` is blocked by the dangerous-keyword
layer in both modes and independently of the oracle, but only the basic
fallback reports `HIGH_RISK`: on the full path the risk tier is `"SAFE"`
(the `_assess_risk_level` category/key mismatch), contradicting the claim. -/
theorem bomb_message_risk_divergence :
    (check_content true (GeminiOutcome.ok "") "bomb").blocked = true ∧
    (check_content true (GeminiOutcome.ok "") "bomb").risk_assessment = "SAFE" ∧
    (check_content false (GeminiOutcome.ok "") "bomb").blocked = true ∧
    (check_content false (GeminiOutcome.ok "") "bomb").risk_assessment = "HIGH_RISK" ∧
    (∀ o : GeminiOutcome, check_content_safety o "bomb" =
      ⟨true, "CONTENT_SAFETY", "Dangerous content detected", 9/10⟩) := by
  refine ⟨by decide, by decide, by decide, by decide, fun o => rfl⟩

/-- C4 counterexample.  The claim says a security/privacy regex match (an
e-mail address) blocks in fallback mode exactly as in full mode.  At the
concrete message `"a@b.co"` the full path blocks (e-mail regex) while the
fallback path does not block at all: the fallback replaces every layer, not
just the content-safety ones. -/
theorem fallback_email_not_blocked_counterexample :
    (check_content true (GeminiOutcome.ok "") "a@b.co").blocked = true ∧
    (check_content false (GeminiOutcome.ok "") "a@b.co").blocked = false := by
  exact ⟨by decide, by decide⟩

/-- C4 amended.  When the external model is unconfigured or fails entirely,
the verdict equals `basic_content_check` alone: the fixed keyword table over
the four categories VIOLENCE / HARASSMENT / PROFANITY / INAPPROPRIATE with
fixed confidence 0.8.  The brand/tone, topic-alignment and
security/privacy-regex layers do **not** run in fallback mode: the e-mail
message `"a@b.co"` and the off-topic message `"weather"` are not blocked by
the fallback even though the security layer (resp. the alignment layer)
blocks them. -/
theorem fallback_replaces_all_layers (oracle : GeminiOutcome) (msg : String)
    (v : Violation) (hv : v ∈ (basic_content_check msg).violations) :
    check_content false oracle msg = basic_content_check msg ∧
    (basic_content_check msg).method = "basic_fallback" ∧
    v.score = 4/5 ∧
    v.type ∈ ["VIOLENCE", "HARASSMENT", "PROFANITY", "INAPPROPRIATE"] ∧
    (basic_content_check "a@b.co").blocked = false ∧
    (check_security_privacy "a@b.co").blocked = true ∧
    (basic_content_check "weather").blocked = false ∧
    (check_alignment "weather").blocked = true := by
  refine ⟨rfl, rfl, ?_, ?_, by decide, by decide, by decide, by decide⟩ <;>
  · simp only [basic_content_check, List.mem_filterMap, critical_patterns] at hv
    obtain ⟨cp, hcp, hm⟩ := hv
    rcases hfind : cp.2.find? (fun p => pyContains p (pyLower msg)) with _ | p <;>
      rw [hfind] at hm
    · simp at hm
    · simp only [Option.some_inj] at hm
      subst hm
      fin_cases hcp <;> simp

/-- C4 witness: `fallback_replaces_all_layers` applied to the message
`"kill"` and its (single) fallback violation. -/
theorem fallback_replaces_all_layers_witness :
    check_content false (GeminiOutcome.ok "") "kill" = basic_content_check "kill" ∧
    (basic_content_check "kill").method = "basic_fallback" ∧
    (Violation.mk "VIOLENCE" (4/5) (1/2) "Contains inappropriate word: kill").score = 4/5 ∧
    (Violation.mk "VIOLENCE" (4/5) (1/2) "Contains inappropriate word: kill").type ∈
      ["VIOLENCE", "HARASSMENT", "PROFANITY", "INAPPROPRIATE"] ∧
    (basic_content_check "a@b.co").blocked = false ∧
    (check_security_privacy "a@b.co").blocked = true ∧
    (basic_content_check "weather").blocked = false ∧
    (check_alignment "weather").blocked = true := by
  have h : (basic_content_check "kill").violations =
      [Violation.mk "VIOLENCE" (4/5) (1/2) ("Contains inappropriate word: " ++ "kill")] := rfl
  have hmem : (Violation.mk "VIOLENCE" (4/5) (1/2) "Contains inappropriate word: kill") ∈
      (basic_content_check "kill").violations := by
    rw [h]; simp
  exact fallback_replaces_all_layers (GeminiOutcome.ok "") "kill" _ hmem

/-!
## Route analysis: distance estimator, proximity counters, segment classifier

`calculate_distance` returns `sqrt((Δlat·69)² + (Δlng·54.6)²)` miles.  The
program only ever compares this value against a radius; `nearQ` embeds the
comparison `calculate_distance ≤ r` inside `ℚ` (equivalently, by
`calculate_distance_le_iff`: `0 ≤ r ∧ d² ≤ r²`), which keeps every counting
function computable.
-/

/-- The square of `calculate_distance`, in exact rational arithmetic
(`54.6 = 273/5`). -/
def calculate_distance_sq (lat1 lng1 lat2 lng2 : ℚ) : ℚ :=
  (|lat1 - lat2| * 69)^2 + (|lng1 - lng2| * (273/5))^2

/-- `calculate_distance`: flat-earth approximate distance in miles. -/
noncomputable def calculate_distance (lat1 lng1 lat2 lng2 : ℚ) : ℝ :=
  Real.sqrt ((calculate_distance_sq lat1 lng1 lat2 lng2 : ℚ) : ℝ)

/-- Decidable embedding of the comparison `calculate_distance ≤ r`. -/
def nearQ (lat1 lng1 lat2 lng2 r : ℚ) : Bool :=
  decide (0 ≤ r ∧ calculate_distance_sq lat1 lng1 lat2 lng2 ≤ r^2)

lemma calculate_distance_sq_nonneg (lat1 lng1 lat2 lng2 : ℚ) :
    0 ≤ calculate_distance_sq lat1 lng1 lat2 lng2 := by
  unfold calculate_distance_sq
  positivity

/-- `nearQ` is exactly the program's comparison `calculate_distance ≤ r`. -/
lemma calculate_distance_le_iff (lat1 lng1 lat2 lng2 r : ℚ) :
    calculate_distance lat1 lng1 lat2 lng2 ≤ (r : ℝ) ↔
      nearQ lat1 lng1 lat2 lng2 r = true := by
  unfold calculate_distance nearQ
  rw [Real.sqrt_le_iff, decide_eq_true_iff]
  constructor
  · rintro ⟨hr, hle⟩
    exact ⟨by exact_mod_cast hr, by exact_mod_cast hle⟩
  · rintro ⟨hr, hle⟩
    exact ⟨by exact_mod_cast hr, by exact_mod_cast hle⟩

/-- Growing the radius keeps an incident near. -/
lemma nearQ_mono (lat1 lng1 lat2 lng2 r1 r2 : ℚ) (hr : r1 ≤ r2)
    (h : nearQ lat1 lng1 lat2 lng2 r1 = true) :
    nearQ lat1 lng1 lat2 lng2 r2 = true := by
  rw [nearQ, decide_eq_true_iff] at h ⊢
  obtain ⟨h0, hle⟩ := h
  exact ⟨h0.trans hr, hle.trans (pow_le_pow_left₀ h0 hr 2)⟩

/-- An incident dict as consumed by the route-analysis helpers: the code
reads `lat`, `lng` and `severity` via `.get` (absent keys give `None`). -/
structure RouteIncident where
  lat : Option ℚ
  lng : Option ℚ
  severity : Option String
deriving DecidableEq

/-- One step of `route['legs'][0]['steps']`. -/
structure RouteStep where
  start_lat : ℚ
  start_lng : ℚ
  end_lat : ℚ
  end_lng : ℚ
  polyline_points : String
  distance_text : String
  duration_text : String
deriving DecidableEq

/-- One element of the `route_segments` output list. -/
structure RouteSegment where
  segment_id : ℕ
  encoded_path : String
  distance : String
  duration : String
  incident_count : ℕ
  severe_incidents : ℕ
  safety_level : String
deriving DecidableEq

/-- `count_incidents_near_route_segment`: an incident is counted when both
coordinates are truthy (present and nonzero) and its distance from the start
or the end endpoint is at most `radius_miles`. -/
def count_incidents_near_route_segment (slat slng elat elng : ℚ)
    (incidents : List RouteIncident) (radius_miles : ℚ) : ℕ :=
  match incidents with
  | [] => 0
  | inc :: rest =>
      (if pyTruthyNum inc.lat && pyTruthyNum inc.lng then
        (if nearQ slat slng (inc.lat.getD 0) (inc.lng.getD 0) radius_miles ||
            nearQ elat elng (inc.lat.getD 0) (inc.lng.getD 0) radius_miles
         then 1 else 0)
       else 0) +
      count_incidents_near_route_segment slat slng elat elng rest radius_miles

/-- `count_severe_incidents_near_segment`: same, restricted to incidents
whose `severity` equals `"high"`. -/
def count_severe_incidents_near_segment (slat slng elat elng : ℚ)
    (incidents : List RouteIncident) (radius_miles : ℚ) : ℕ :=
  match incidents with
  | [] => 0
  | inc :: rest =>
      (if inc.severity == some "high" then
        (if pyTruthyNum inc.lat && pyTruthyNum inc.lng then
          (if nearQ slat slng (inc.lat.getD 0) (inc.lng.getD 0) radius_miles ||
              nearQ elat elng (inc.lat.getD 0) (inc.lng.getD 0) radius_miles
           then 1 else 0)
         else 0)
       else 0) +
      count_severe_incidents_near_segment slat slng elat elng rest radius_miles

/-- The classification chain of `analyze_route_segments`. -/
def segment_safety_level (incidents_near_segment severe_incidents : ℕ) : String :=
  if severe_incidents > 0 ∨ incidents_near_segment ≥ 3 then "high_risk"
  else if incidents_near_segment ≥ 1 then "medium_risk"
  else "safe"

/-- `analyze_route_segments` over the steps of the route's first leg. -/
def analyze_route_segments (steps : List RouteStep)
    (incidents : List RouteIncident) : List RouteSegment :=
  steps.enum.map (fun p =>
    let total := count_incidents_near_route_segment
      p.2.start_lat p.2.start_lng p.2.end_lat p.2.end_lng incidents (1/2)
    let severe := count_severe_incidents_near_segment
      p.2.start_lat p.2.start_lng p.2.end_lat p.2.end_lng incidents (3/10)
    ⟨p.1, p.2.polyline_points, p.2.distance_text, p.2.duration_text,
      total, severe, segment_safety_level total severe⟩)

/-- Claim-side "valid coordinates": the code's truthiness test — both
coordinates present and nonzero. -/
def validCoords (inc : RouteIncident) : Bool :=
  pyTruthyNum inc.lat && pyTruthyNum inc.lng

/-- Claim-side counting predicate: valid coordinates, and within `r` miles of
the start or the end endpoint. -/
def near_segment_pred (slat slng elat elng r : ℚ) (inc : RouteIncident) : Bool :=
  validCoords inc &&
  (nearQ slat slng (inc.lat.getD 0) (inc.lng.getD 0) r ||
   nearQ elat elng (inc.lat.getD 0) (inc.lng.getD 0) r)

/-- Claim-side counting predicate for the severe variant: additionally
`severity = "high"`. -/
def severe_near_segment_pred (slat slng elat elng r : ℚ) (inc : RouteIncident) : Bool :=
  (inc.severity == some "high") && near_segment_pred slat slng elat elng r inc

lemma count_eq_countP (slat slng elat elng r : ℚ) (incs : List RouteIncident) :
    count_incidents_near_route_segment slat slng elat elng incs r =
      incs.countP (near_segment_pred slat slng elat elng r) := by
  induction incs with
  | nil => rfl
  | cons inc rest ih =>
      rw [count_incidents_near_route_segment, List.countP_cons, ih]
      cases hA : (pyTruthyNum inc.lat && pyTruthyNum inc.lng) <;>
      cases hB : (nearQ slat slng (inc.lat.getD 0) (inc.lng.getD 0) r ||
          nearQ elat elng (inc.lat.getD 0) (inc.lng.getD 0) r) <;>
        simp [near_segment_pred, validCoords, hA, hB, Nat.add_comm]

lemma severe_eq_countP (slat slng elat elng r : ℚ) (incs : List RouteIncident) :
    count_severe_incidents_near_segment slat slng elat elng incs r =
      incs.countP (severe_near_segment_pred slat slng elat elng r) := by
  induction incs with
  | nil => rfl
  | cons inc rest ih =>
      rw [count_severe_incidents_near_segment, List.countP_cons, ih]
      cases hS : (inc.severity == some "high") <;>
      cases hA : (pyTruthyNum inc.lat && pyTruthyNum inc.lng) <;>
      cases hB : (nearQ slat slng (inc.lat.getD 0) (inc.lng.getD 0) r ||
          nearQ elat elng (inc.lat.getD 0) (inc.lng.getD 0) r) <;>
        simp [severe_near_segment_pred, near_segment_pred, validCoords, hS, hA, hB, Nat.add_comm]

/-- The classifier chain written from the spec's words ("high_risk if severe
> 0 or total ≥ 3; else medium_risk if total ≥ 1; else safe"). -/
def spec_classify (total severe : ℕ) : String :=
  if 0 < severe ∨ 3 ≤ total then "high_risk"
  else if 1 ≤ total then "medium_risk"
  else "safe"

lemma segment_safety_level_eq_spec (t s : ℕ) :
    segment_safety_level t s = spec_classify t s := rfl

lemma severe_pred_imp (slat slng elat elng : ℚ) (inc : RouteIncident)
    (hp : severe_near_segment_pred slat slng elat elng (3/10) inc = true) :
    near_segment_pred slat slng elat elng (1/2) inc = true := by
  simp only [severe_near_segment_pred, Bool.and_eq_true] at hp
  obtain ⟨-, hp⟩ := hp
  simp only [near_segment_pred, Bool.and_eq_true, Bool.or_eq_true] at hp ⊢
  refine ⟨hp.1, ?_⟩
  rcases hp.2 with h | h
  · exact Or.inl (nearQ_mono _ _ _ _ _ _ (by norm_num) h)
  · exact Or.inr (nearQ_mono _ _ _ _ _ _ (by norm_num) h)

lemma severe_count_le (slat slng elat elng : ℚ) (incs : List RouteIncident) :
    count_severe_incidents_near_segment slat slng elat elng incs (3/10) ≤
      count_incidents_near_route_segment slat slng elat elng incs (1/2) := by
  rw [count_eq_countP, severe_eq_countP]
  exact List.countP_mono_left (fun inc _ hp => severe_pred_imp _ _ _ _ _ hp)

/-!
## Route theorems (claims C1, C7, C8)
-/

/-- C8.  The proximity counters count exactly the incidents with valid
coordinates whose flat-earth distance from the start or the end endpoint is
≤ the radius; the severe variant restricts to `severity = "high"`.  The
third conjunct ties the decidable comparison used by the counters back to
the real-valued `calculate_distance ≤ r`, for every radius.  (The call
sites pass the default radii 0.5 and 0.3 miles explicitly.) -/
theorem proximity_count_spec (slat slng elat elng r : ℚ) (incs : List RouteIncident) :
    count_incidents_near_route_segment slat slng elat elng incs r =
      incs.countP (near_segment_pred slat slng elat elng r) ∧
    count_severe_incidents_near_segment slat slng elat elng incs r =
      incs.countP (severe_near_segment_pred slat slng elat elng r) ∧
    (∀ lat lng : ℚ,
      (calculate_distance slat slng lat lng ≤ (r : ℝ) ↔
        nearQ slat slng lat lng r = true)) :=
  ⟨count_eq_countP slat slng elat elng r incs,
   severe_eq_countP slat slng elat elng r incs,
   fun lat lng => calculate_distance_le_iff slat slng lat lng r⟩

/-- C1 counterexample.  A severity-high incident at `(0, 0.002)` lies within
0.3 miles of the endpoint `(0, 0)` of the single step (its distance is
`0.002·54.6 ≈ 0.109` miles, witnessed by the `nearQ` conjunct), yet the code
classifies the step `"safe"`: the incident's latitude `0` is falsy in Python,
so `count_incidents_near_route_segment` and the severe variant both skip it.
The claim, which requires `"high_risk"` for every severity-high incident
within 0.3 miles of an endpoint, is therefore false as stated. -/
theorem route_classifier_zero_coordinate_counterexample :
    (analyze_route_segments [RouteStep.mk 0 0 0 0 "p" "d" "t"]
        [RouteIncident.mk (some 0) (some (1/500)) (some "high")]).map
      RouteSegment.safety_level = ["safe"] ∧
    (RouteIncident.mk (some 0) (some (1/500)) (some "high")).severity = some "high" ∧
    nearQ 0 0 0 (1/500) (3/10) = true := by
  refine ⟨?_, rfl, ?_⟩
  · have hc : count_incidents_near_route_segment 0 0 0 0
        [RouteIncident.mk (some 0) (some (1/500)) (some "high")] (1/2) = 0 := by
      simp [count_incidents_near_route_segment, pyTruthyNum]
    have hs : count_severe_incidents_near_segment 0 0 0 0
        [RouteIncident.mk (some 0) (some (1/500)) (some "high")] (3/10) = 0 := by
      simp [count_severe_incidents_near_segment, pyTruthyNum]
    simp only [one_div] at hc hs
    simp [analyze_route_segments, hc, hs, segment_safety_level]
  · rw [nearQ, decide_eq_true_iff]
    refine ⟨by norm_num, ?_⟩
    rw [calculate_distance_sq]
    have habs : |(0:ℚ) - 1/500| = 1/500 := by
      rw [abs_sub_comm, sub_zero]
      exact abs_of_nonneg (by norm_num)
    rw [habs]
    norm_num

/-- C1 amended.  For every route and incident set, the classifier labels the
`i`-th step using `total` = the number of incidents with valid (truthy)
coordinates within 0.5 miles of either endpoint and `severe` = the number of
severity-high such incidents within 0.3 miles, as `high_risk` if `severe > 0`
or `total ≥ 3`, else `medium_risk` if `total ≥ 1`, else `safe`; the output
preserves the input step order (`segment_id = i`, texts copied from step
`i`). -/
theorem route_classifier_amended (steps : List RouteStep) (incs : List RouteIncident)
    (i : ℕ) (h : i < steps.length)
    (h2 : i < (analyze_route_segments steps incs).length) :
    (analyze_route_segments steps incs).length = steps.length ∧
    (analyze_route_segments steps incs).get ⟨i, h2⟩ =
      { segment_id := i
        encoded_path := (steps.get ⟨i, h⟩).polyline_points
        distance := (steps.get ⟨i, h⟩).distance_text
        duration := (steps.get ⟨i, h⟩).duration_text
        incident_count := incs.countP (near_segment_pred (steps.get ⟨i, h⟩).start_lat
          (steps.get ⟨i, h⟩).start_lng (steps.get ⟨i, h⟩).end_lat (steps.get ⟨i, h⟩).end_lng (1/2))
        severe_incidents := incs.countP (severe_near_segment_pred (steps.get ⟨i, h⟩).start_lat
          (steps.get ⟨i, h⟩).start_lng (steps.get ⟨i, h⟩).end_lat (steps.get ⟨i, h⟩).end_lng (3/10))
        safety_level := spec_classify
          (incs.countP (near_segment_pred (steps.get ⟨i, h⟩).start_lat
            (steps.get ⟨i, h⟩).start_lng (steps.get ⟨i, h⟩).end_lat (steps.get ⟨i, h⟩).end_lng (1/2)))
          (incs.countP (severe_near_segment_pred (steps.get ⟨i, h⟩).start_lat
            (steps.get ⟨i, h⟩).start_lng (steps.get ⟨i, h⟩).end_lat (steps.get ⟨i, h⟩).end_lng (3/10))) } := by
  refine ⟨by simp [analyze_route_segments], ?_⟩
  simp only [analyze_route_segments, List.get_eq_getElem, List.getElem_map,
    List.getElem_enum, count_eq_countP, severe_eq_countP, segment_safety_level_eq_spec]

/-- C1 witness: `route_classifier_amended` on a one-step route with no
incidents. -/
theorem route_classifier_amended_witness :
    (analyze_route_segments [RouteStep.mk 0 0 0 0 "path" "0.1 mi" "1 min"] []).length =
      [RouteStep.mk 0 0 0 0 "path" "0.1 mi" "1 min"].length ∧
    (analyze_route_segments [RouteStep.mk 0 0 0 0 "path" "0.1 mi" "1 min"] []).get
        ⟨0, by decide⟩ =
      RouteSegment.mk 0 "path" "0.1 mi" "1 min" 0 0 "safe" :=
  route_classifier_amended [RouteStep.mk 0 0 0 0 "path" "0.1 mi" "1 min"] [] 0
    (by decide) (by decide)

/-- C7.  If no incident (with valid coordinates) lies within 0.5 miles of
either endpoint of step `i`, then the severe count within 0.3 miles is
necessarily zero as well (0.3 ≤ 0.5 and severe incidents are a subset), and
the step is classified `"safe"`. -/
theorem zero_nearby_incidents_safe (steps : List RouteStep) (incs : List RouteIncident)
    (i : ℕ) (h : i < steps.length)
    (h2 : i < (analyze_route_segments steps incs).length)
    (hzero : count_incidents_near_route_segment (steps.get ⟨i, h⟩).start_lat
      (steps.get ⟨i, h⟩).start_lng (steps.get ⟨i, h⟩).end_lat
      (steps.get ⟨i, h⟩).end_lng incs (1/2) = 0) :
    count_severe_incidents_near_segment (steps.get ⟨i, h⟩).start_lat
      (steps.get ⟨i, h⟩).start_lng (steps.get ⟨i, h⟩).end_lat
      (steps.get ⟨i, h⟩).end_lng incs (3/10) = 0 ∧
    ((analyze_route_segments steps incs).get ⟨i, h2⟩).safety_level = "safe" := by
  have hsev : count_severe_incidents_near_segment (steps.get ⟨i, h⟩).start_lat
      (steps.get ⟨i, h⟩).start_lng (steps.get ⟨i, h⟩).end_lat
      (steps.get ⟨i, h⟩).end_lng incs (3/10) = 0 :=
    Nat.le_zero.mp (hzero ▸ severe_count_le _ _ _ _ incs)
  refine ⟨hsev, ?_⟩
  simp only [List.get_eq_getElem, one_div] at hzero hsev
  simp only [analyze_route_segments, List.get_eq_getElem, List.getElem_map, List.getElem_enum]
  simp [segment_safety_level, hzero, hsev]

/-- C7 witness: `zero_nearby_incidents_safe` on a one-step route with no
incidents. -/
theorem zero_nearby_incidents_safe_witness :
    count_severe_incidents_near_segment
      ([RouteStep.mk 0 0 0 0 "p" "d" "t"].get ⟨0, by decide⟩).start_lat
      ([RouteStep.mk 0 0 0 0 "p" "d" "t"].get ⟨0, by decide⟩).start_lng
      ([RouteStep.mk 0 0 0 0 "p" "d" "t"].get ⟨0, by decide⟩).end_lat
      ([RouteStep.mk 0 0 0 0 "p" "d" "t"].get ⟨0, by decide⟩).end_lng [] (3/10) = 0 ∧
    ((analyze_route_segments [RouteStep.mk 0 0 0 0 "p" "d" "t"] []).get
      ⟨0, by decide⟩).safety_level = "safe" :=
  zero_nearby_incidents_safe [RouteStep.mk 0 0 0 0 "p" "d" "t"] [] 0
    (by decide) (by decide) rfl

/-!
## Safety score calculator (`calculate_safety_score_by_mode`)

The Python function receives the place-search result lists and uses only
their lengths, so the embedding takes the three counts directly.  The
distance string is parsed with `float(distance.split()[0])`;
`pyFloat?` models `float()` on finite decimal literals (optional sign,
digits, optional fractional part — the shapes the directions API produces;
`inf`/`nan`/exponents are IEEE artifacts outside the rational model), and a
parse failure (`ValueError`/`IndexError` caught by the bare `except`) gives
the flat penalty 0.5.  `pyRound1` models `round(x, 1)`
(round-half-to-even at the first decimal). -/

/-- Python `str.split()` (split on whitespace runs, dropping empties),
worker on character lists. -/
def splitWsAux : List Char → List Char → List (List Char)
  | [], acc => if acc.isEmpty then [] else [acc.reverse]
  | c :: rest, acc =>
      if pySpace c then
        if acc.isEmpty then splitWsAux rest [] else acc.reverse :: splitWsAux rest []
      else splitWsAux rest (c :: acc)

/-- Python `str.split()` with no arguments. -/
def pySplitWs (s : String) : List String :=
  (splitWsAux s.data []).map String.mk

/-- Decimal value of a digit run. -/
def digitsToNat (ds : List Char) : ℕ :=
  ds.foldl (fun acc c => acc * 10 + (c.toNat - 48)) 0

/-- Python `float(s)` on finite decimal literals: optional surrounding
whitespace, optional sign, digits with an optional fractional part; anything
else (including the empty string) raises, modelled as `none`. -/
def pyFloat? (s : String) : Option ℚ :=
  let cs := ((s.data.dropWhile pySpace).reverse.dropWhile pySpace).reverse
  let signed : ℚ × List Char :=
    match cs with
    | '+' :: rest => (1, rest)
    | '-' :: rest => (-1, rest)
    | _ => (1, cs)
  let sign := signed.1
  let cs1 := signed.2
  let intPart := cs1.takeWhile Char.isDigit
  let cs2 := cs1.dropWhile Char.isDigit
  match cs2 with
  | [] => if intPart.isEmpty then none else some (sign * (digitsToNat intPart : ℚ))
  | '.' :: cs3 =>
      let fracPart := cs3.takeWhile Char.isDigit
      let cs4 := cs3.dropWhile Char.isDigit
      if intPart.isEmpty && fracPart.isEmpty then none
      else if cs4.isEmpty then
        some (sign * ((digitsToNat intPart : ℚ) +
          (digitsToNat fracPart : ℚ) / (10 ^ fracPart.length)))
      else none
  | _ => none

/-- Python `str.startswith`. -/
def pyStartsWith (pre s : String) : Bool :=
  pre.data.isPrefixOf s.data

/-- The parsing half of the penalty block: leading numeric token, unit token
(`'mi'` when absent), km→mi conversion by 0.621371 when the lower-cased unit
starts with `km`. -/
def parse_distance_miles (distance : String) : Option ℚ :=
  match pySplitWs distance with
  | [] => none
  | tok :: rest =>
    match pyFloat? tok with
    | none => none
    | some v =>
        let unit := match rest with | [] => "mi" | u :: _ => u
        if pyStartsWith "km" (pyLower unit) then some (v * (621371/1000000)) else some v

/-- The distance-penalty block of `calculate_safety_score_by_mode`: the
mode-specific divisor (driving /20, walking /2, transit /10, else /5) and cap
(1.0 / 2.0 / 1.5 / 1.5); parse failure gives the flat 0.5. -/
def distance_penalty (travel_mode distance : String) : ℚ :=
  match parse_distance_miles distance with
  | none => 1/2
  | some miles =>
      if travel_mode = "DRIVING" then min (miles / 20) 1
      else if travel_mode = "WALKING" then min (miles / 2) 2
      else if travel_mode = "TRANSIT" then min (miles / 10) (3/2)
      else min (miles / 5) (3/2)

/-- `base_scores.get(travel_mode, 5.0)`. -/
def base_score (travel_mode : String) : ℚ :=
  if travel_mode = "DRIVING" then 6
  else if travel_mode = "WALKING" then 4
  else if travel_mode = "TRANSIT" then 5
  else if travel_mode = "BICYCLING" then 9/2
  else 5

/-- Police bonus per mode (unknown modes take the `else` = BICYCLING arm, as
in the source's if/elif/else chain). -/
def police_bonus (travel_mode : String) (police_stations : ℕ) : ℚ :=
  if travel_mode = "DRIVING" then min ((police_stations : ℚ) * (3/10)) (3/2)
  else if travel_mode = "WALKING" then min ((police_stations : ℚ) * (7/10)) 3
  else if travel_mode = "TRANSIT" then min ((police_stations : ℚ) * (1/2)) 2
  else min ((police_stations : ℚ) * (3/5)) (5/2)

/-- Hospital bonus per mode. -/
def hospital_bonus (travel_mode : String) (hospitals : ℕ) : ℚ :=
  if travel_mode = "DRIVING" then min ((hospitals : ℚ) * (1/5)) 1
  else if travel_mode = "WALKING" then min ((hospitals : ℚ) * (1/2)) 2
  else if travel_mode = "TRANSIT" then min ((hospitals : ℚ) * (3/10)) (3/2)
  else min ((hospitals : ℚ) * (2/5)) (3/2)

/-- Gas-station bonus (driving only). -/
def gas_bonus (travel_mode : String) (gas_stations : ℕ) : ℚ :=
  if travel_mode = "DRIVING" then min ((gas_stations : ℚ) * (1/5)) 1
  else 0

/-- Round-half-to-even to an integer. -/
def round_half_even (x : ℚ) : ℤ :=
  if x - ⌊x⌋ < 1/2 then ⌊x⌋
  else if 1/2 < x - ⌊x⌋ then ⌊x⌋ + 1
  else if Even ⌊x⌋ then ⌊x⌋ else ⌊x⌋ + 1

/-- Python `round(x, 1)`. -/
def pyRound1 (x : ℚ) : ℚ :=
  (round_half_even (10 * x) : ℚ) / 10

/-- `calculate_safety_score_by_mode`: base + bonuses − penalty, clamped to
`[1, 10]`, rounded to one decimal. -/
def calculate_safety_score_by_mode (police_stations hospitals gas_stations : ℕ)
    (distance travel_mode : String) : ℚ :=
  pyRound1 (max (min (base_score travel_mode +
    police_bonus travel_mode police_stations +
    hospital_bonus travel_mode hospitals +
    gas_bonus travel_mode gas_stations -
    distance_penalty travel_mode distance) 10) 1)

lemma pyRound1_bounds (q : ℚ) (h1 : 1 ≤ q) (h10 : q ≤ 10) :
    1 ≤ pyRound1 q ∧ pyRound1 q ≤ 10 := by
  unfold pyRound1 round_half_even
  have hyl : (10:ℚ) ≤ 10 * q := by linarith
  have hyu : 10 * q ≤ 100 := by linarith
  have hnl : (10:ℤ) ≤ ⌊10 * q⌋ := by
    rw [Int.le_floor]; exact_mod_cast hyl
  have hnu : (⌊10 * q⌋ : ℚ) ≤ 100 := (Int.floor_le _).trans hyu
  have hfr : 10 * q - ⌊10 * q⌋ < 1 := by
    have := Int.lt_floor_add_one (10 * q); linarith
  have hnl2 : (10:ℚ) ≤ (⌊10 * q⌋ : ℚ) := by exact_mod_cast hnl
  have hup : ∀ hh : 1/2 ≤ 10 * q - ⌊10 * q⌋, ((⌊10 * q⌋ + 1 : ℤ) : ℚ) ≤ 100 := by
    intro hh
    have h995 : (⌊10 * q⌋ : ℚ) ≤ 199/2 := by linarith
    have h99 : ⌊10 * q⌋ ≤ 99 := by
      by_contra hcon
      push_neg at hcon
      have : (100:ℚ) ≤ (⌊10 * q⌋ : ℚ) := by exact_mod_cast hcon
      linarith
    push_cast
    have : (⌊10 * q⌋ : ℚ) ≤ 99 := by exact_mod_cast h99
    linarith
  split_ifs with hc1 hc2 hc3
  · constructor
    · rw [le_div_iff₀ (by norm_num : (0:ℚ) < 10)]; linarith
    · rw [div_le_iff₀ (by norm_num : (0:ℚ) < 10)]; linarith
  · constructor
    · rw [le_div_iff₀ (by norm_num : (0:ℚ) < 10)]; push_cast; linarith
    · rw [div_le_iff₀ (by norm_num : (0:ℚ) < 10)]
      have := hup (by linarith)
      push_cast at this ⊢
      linarith
  · constructor
    · rw [le_div_iff₀ (by norm_num : (0:ℚ) < 10)]; linarith
    · rw [div_le_iff₀ (by norm_num : (0:ℚ) < 10)]; linarith
  · constructor
    · rw [le_div_iff₀ (by norm_num : (0:ℚ) < 10)]; push_cast; linarith
    · rw [div_le_iff₀ (by norm_num : (0:ℚ) < 10)]
      have := hup (by linarith)
      push_cast at this ⊢
      linarith

/-!
## Safety-score theorems (claims C5, C6)
-/

/-- C5.  For every travel mode (any string), every police/hospital/gas count
and every distance string, the safety score — base plus capped bonuses minus
the distance penalty, clamped to `[1, 10]` and rounded to one decimal — lies
in `[1.0, 10.0]`. -/
theorem safety_score_clamped (police_stations hospitals gas_stations : ℕ)
    (distance travel_mode : String) :
    1 ≤ calculate_safety_score_by_mode police_stations hospitals gas_stations
        distance travel_mode ∧
    calculate_safety_score_by_mode police_stations hospitals gas_stations
        distance travel_mode ≤ 10 := by
  unfold calculate_safety_score_by_mode
  exact pyRound1_bounds _ (le_max_right _ _)
    (max_le (min_le_right _ _) (by norm_num))

/-- The spec's divisor table: driving /20, walking /2, transit /10,
bicycling /5. -/
def spec_divisor (travel_mode : String) : ℚ :=
  if travel_mode = "DRIVING" then 20
  else if travel_mode = "WALKING" then 2
  else if travel_mode = "TRANSIT" then 10
  else 5

/-- The spec's penalty-cap table: 1.0 / 2.0 / 1.5 / 1.5. -/
def spec_cap (travel_mode : String) : ℚ :=
  if travel_mode = "DRIVING" then 1
  else if travel_mode = "WALKING" then 2
  else if travel_mode = "TRANSIT" then 3/2
  else 3/2

/-- The distance penalty written from the spec's words: parse the leading
numeric token and unit, convert km→mi, divide by the mode divisor, cap per
mode; parse failure gives the flat 0.5. -/
def spec_penalty (travel_mode distance : String) : ℚ :=
  match parse_distance_miles distance with
  | none => 1/2
  | some miles => min (miles / spec_divisor travel_mode) (spec_cap travel_mode)

/-- C6.  For each of the four travel modes and every distance string the
code's penalty equals the spec's divisor/cap description; `"5 km"` parses to
exactly `5 × 0.621371 = 3.106855` miles before the divisor; and every
unparseable string such as `"abc"` yields the flat penalty 0.5 (for every
mode, known or not) without any exception escaping. -/
theorem distance_penalty_spec (travel_mode distance : String)
    (hm : travel_mode ∈ ["DRIVING", "WALKING", "TRANSIT", "BICYCLING"]) :
    distance_penalty travel_mode distance = spec_penalty travel_mode distance ∧
    parse_distance_miles "5 km" = some (3106855/1000000) ∧
    (∀ mode : String, distance_penalty mode "abc" = 1/2) := by
  refine ⟨?_, ?_, fun mode => rfl⟩
  · fin_cases hm <;>
      · unfold distance_penalty spec_penalty spec_divisor spec_cap
        cases parse_distance_miles distance <;> simp
  · rw [show parse_distance_miles "5 km" =
      some ((1:ℚ) * ((5:ℕ):ℚ) * (621371/1000000)) from rfl]
    norm_num

/-- C6 witness: `distance_penalty_spec` at mode `"DRIVING"` and distance
`"5 km"`. -/
theorem distance_penalty_spec_witness :
    distance_penalty "DRIVING" "5 km" = spec_penalty "DRIVING" "5 km" ∧
    parse_distance_miles "5 km" = some (3106855/1000000) ∧
    (∀ mode : String, distance_penalty mode "abc" = 1/2) :=
  distance_penalty_spec "DRIVING" "5 km" (by decide)

/-!
## Incident store (`FirestoreIncidentManager.store_incident`)

The function is modelled as the pure document/return-value construction; the
generated `uuid4` and `datetime.utcnow()` readings are passed in as the
`incident_id` and `now` parameters, and timestamps are integer instants.
-/

/-- The fields of `incident_data` that `store_incident` reads.  `has_photo`
is the truthiness of the submitted flag; optional fields are read with
`.get`. -/
structure IncidentData where
  type : String
  location : String
  lat : ℚ
  lng : ℚ
  description : String
  severity : String
  ip_address : Option String
  user_agent : Option String
  has_photo : Bool
  photo_data : Option String
  photo_filename : Option String
deriving DecidableEq

/-- The photo-validation block of `store_incident`: the photo is kept only
when the flag and payload are truthy and `len(photo_data)` is within the
1 MB (`1024 * 1024` characters) limit; an oversize payload is dropped
(`has_photo = False`, data and filename left `None`). -/
def photo_fields (d : IncidentData) : Bool × Option String × Option String :=
  if d.has_photo && pyTruthyStr d.photo_data then
    if (d.photo_data.getD "").length > 1024 * 1024 then (false, none, none)
    else (true, d.photo_data, d.photo_filename)
  else (false, none, none)

/-- The `document_data` dict written to the `incidents` collection
(`reporter_info` flattened into the three `reporter_*` fields). -/
structure StoredDoc where
  incident_id : String
  type : String
  location : String
  latitude : ℚ
  longitude : ℚ
  description : String
  severity : String
  created_at : ℤ
  source : String
  status : String
  has_photo : Bool
  photo_data : Option String
  photo_filename : Option String
  photo_uploaded_at : Option ℤ
  reporter_ip : String
  reporter_ua : String
  reporter_time : ℤ
deriving DecidableEq

/-- `store_incident`: the stored document. -/
def store_incident_doc (incident_id : String) (now : ℤ) (d : IncidentData) : StoredDoc :=
  let pf := photo_fields d
  { incident_id := incident_id, type := d.type, location := d.location,
    latitude := d.lat, longitude := d.lng, description := d.description,
    severity := d.severity, created_at := now, source := "user_report",
    status := "active", has_photo := pf.1, photo_data := pf.2.1,
    photo_filename := pf.2.2,
    photo_uploaded_at := if pf.1 then some now else none,
    reporter_ip := d.ip_address.getD "", reporter_ua := d.user_agent.getD "",
    reporter_time := now }

/-- The dict `store_incident` returns to its caller. -/
structure StoredReturn where
  id : String
  type : String
  location : String
  lat : ℚ
  lng : ℚ
  description : String
  severity : String
  timestamp : String
  date : ℤ
  source : String
  has_photo : Bool
  photo_data : Option String
  photo_filename : Option String
deriving DecidableEq

/-- `store_incident`: the returned record (`timestamp` is the literal
`'Just now'`, `date` the `isoformat` of `now`). -/
def store_incident_result (incident_id : String) (now : ℤ) (d : IncidentData) : StoredReturn :=
  let doc := store_incident_doc incident_id now d
  { id := doc.incident_id, type := doc.type, location := doc.location,
    lat := doc.latitude, lng := doc.longitude, description := doc.description,
    severity := doc.severity, timestamp := "Just now", date := now,
    source := "user_report", has_photo := doc.has_photo,
    photo_data := doc.photo_data, photo_filename := doc.photo_filename }

/-- C10.  An oversize photo payload (> 1,048,576 characters) raises no
error: the incident is still stored and returned, but with `has_photo =
false` and null photo data/filename, and every other field of the stored
record (type, location, latitude, longitude, description, severity, status,
source) equals that of the same submission with any in-limit nonempty
payload `q`. -/
theorem store_incident_oversize_photo (incident_id : String) (now : ℤ)
    (d : IncidentData) (p q : String)
    (hhp : d.has_photo = true) (hpd : d.photo_data = some p)
    (hbig : 1048576 < p.length) (hq1 : q.length ≤ 1048576) (hq2 : q.length ≠ 0) :
    (store_incident_doc incident_id now d).has_photo = false ∧
    (store_incident_doc incident_id now d).photo_data = none ∧
    (store_incident_doc incident_id now d).photo_filename = none ∧
    (store_incident_result incident_id now d).has_photo = false ∧
    (store_incident_result incident_id now d).photo_data = none ∧
    (store_incident_result incident_id now d).photo_filename = none ∧
    (store_incident_doc incident_id now { d with photo_data := some q }).has_photo = true ∧
    (store_incident_doc incident_id now d).type =
      (store_incident_doc incident_id now { d with photo_data := some q }).type ∧
    (store_incident_doc incident_id now d).location =
      (store_incident_doc incident_id now { d with photo_data := some q }).location ∧
    (store_incident_doc incident_id now d).latitude =
      (store_incident_doc incident_id now { d with photo_data := some q }).latitude ∧
    (store_incident_doc incident_id now d).longitude =
      (store_incident_doc incident_id now { d with photo_data := some q }).longitude ∧
    (store_incident_doc incident_id now d).description =
      (store_incident_doc incident_id now { d with photo_data := some q }).description ∧
    (store_incident_doc incident_id now d).severity =
      (store_incident_doc incident_id now { d with photo_data := some q }).severity ∧
    (store_incident_doc incident_id now d).status =
      (store_incident_doc incident_id now { d with photo_data := some q }).status ∧
    (store_incident_doc incident_id now d).source =
      (store_incident_doc incident_id now { d with photo_data := some q }).source := by
  have hbig2 : p.length > 1048576 := hbig
  have hbig3 : p.data.length ≠ 0 := by
    have h : 1048576 < p.data.length := hbig
    omega
  have hq2d : q.data.length ≠ 0 := hq2
  have hq1d : ¬(q.length > 1048576) := by
    have h : q.length ≤ 1048576 := hq1
    omega
  have hq2s : ¬(q.length = 0) := hq2
  simp [store_incident_doc, store_incident_result, photo_fields, pyTruthyStr,
    hhp, hpd, hbig2, hbig3, hq2d, hq1d, hq2s]

/-- A 1,048,577-character payload, exceeding the 1 MB limit by one. -/
def sample_big_photo : String := String.mk (List.replicate 1048577 'a')

lemma string_mk_replicate_length (n : ℕ) (c : Char) :
    (String.mk (List.replicate n c)).length = n := by
  rw [show (String.mk (List.replicate n c)).length = (List.replicate n c).length from rfl]
  simp

/-- A submission carrying the oversize payload. -/
def sample_submission : IncidentData :=
  ⟨"theft", "Bethesda, MD", 1, 2, "bike stolen", "medium",
   none, none, true, some sample_big_photo, some "photo.jpg"⟩

/-- C10 witness: `store_incident_oversize_photo` at the oversize submission
`sample_submission` against the in-limit payload `"x"`. -/
theorem store_incident_oversize_photo_witness :
    (store_incident_doc "id0" 0 sample_submission).has_photo = false ∧
    (store_incident_doc "id0" 0 sample_submission).photo_data = none ∧
    (store_incident_doc "id0" 0 sample_submission).photo_filename = none ∧
    (store_incident_result "id0" 0 sample_submission).has_photo = false ∧
    (store_incident_result "id0" 0 sample_submission).photo_data = none ∧
    (store_incident_result "id0" 0 sample_submission).photo_filename = none ∧
    (store_incident_doc "id0" 0 { sample_submission with photo_data := some "x" }).has_photo = true ∧
    (store_incident_doc "id0" 0 sample_submission).type =
      (store_incident_doc "id0" 0 { sample_submission with photo_data := some "x" }).type ∧
    (store_incident_doc "id0" 0 sample_submission).location =
      (store_incident_doc "id0" 0 { sample_submission with photo_data := some "x" }).location ∧
    (store_incident_doc "id0" 0 sample_submission).latitude =
      (store_incident_doc "id0" 0 { sample_submission with photo_data := some "x" }).latitude ∧
    (store_incident_doc "id0" 0 sample_submission).longitude =
      (store_incident_doc "id0" 0 { sample_submission with photo_data := some "x" }).longitude ∧
    (store_incident_doc "id0" 0 sample_submission).description =
      (store_incident_doc "id0" 0 { sample_submission with photo_data := some "x" }).description ∧
    (store_incident_doc "id0" 0 sample_submission).severity =
      (store_incident_doc "id0" 0 { sample_submission with photo_data := some "x" }).severity ∧
    (store_incident_doc "id0" 0 sample_submission).status =
      (store_incident_doc "id0" 0 { sample_submission with photo_data := some "x" }).status ∧
    (store_incident_doc "id0" 0 sample_submission).source =
      (store_incident_doc "id0" 0 { sample_submission with photo_data := some "x" }).source := by
  have hlen : sample_big_photo.length = 1048577 := string_mk_replicate_length 1048577 'a'
  exact store_incident_oversize_photo "id0" 0 sample_submission sample_big_photo "x" rfl rfl
    (by omega) (by decide) (by decide)

/-!
## Incident read path (`FirestoreIncidentManager.get_recent_incidents`)

A stored Firestore document is a dict read entirely through `.get`; the
document name is `docId`.  Timestamps are modelled as integer instants
(`created_at`'s three accepted representations all yield one; a record whose
timestamp string fails to parse is skipped by the per-document `except` and
is outside this model).  The Python sort is stable and keyed on the
ISO-8601 `date` string, whose lexicographic order agrees with the instant
order; the model sorts by the instant with core's stable `mergeSort`.
-/

/-- A document of the `incidents` collection as the read path sees it. -/
structure FsDoc where
  docId : String
  incident_id : Option String
  type : Option String
  location : Option String
  latitude : Option ℚ
  longitude : Option ℚ
  description : Option String
  severity : Option String
  source : Option String
  status : Option String
  created_at : Option ℤ
  has_photo : Option Bool
  photo_data : Option String
  photo_filename : Option String
deriving DecidableEq

/-- An incident record as returned by the listing read path. -/
structure Incident where
  id : String
  type : String
  location : String
  lat : ℚ
  lng : ℚ
  description : String
  severity : String
  timestamp : String
  date : ℤ
  source : String
  has_photo : Bool
  photo_data : Option String
  photo_filename : Option String
deriving DecidableEq

/-- `format_timestamp` on a parsed instant (Python `timedelta` normalises to
floor-divided days and a nonnegative second remainder). -/
def format_timestamp (now t : ℤ) : String :=
  let diff := now - t
  let days := Int.ediv diff 86400
  let seconds := Int.emod diff 86400
  if days > 0 then toString days ++ " days ago"
  else if seconds > 3600 then toString (Int.ediv seconds 3600) ++ " hours ago"
  else if seconds > 60 then toString (Int.ediv seconds 60) ++ " minutes ago"
  else "Just now"

/-- The per-document dict→incident conversion of `get_recent_incidents`,
with each field read via `.get` and its source default. -/
def doc_to_incident (now : ℤ) (d : FsDoc) (t : ℤ) : Incident :=
  { id := d.incident_id.getD d.docId
    type := d.type.getD "unknown"
    location := d.location.getD "Unknown"
    lat := d.latitude.getD 0
    lng := d.longitude.getD 0
    description := d.description.getD ""
    severity := d.severity.getD "low"
    timestamp := format_timestamp now t
    date := t
    source := d.source.getD "unknown"
    has_photo := d.has_photo.getD false
    photo_data := d.photo_data
    photo_filename := d.photo_filename }

/-- `_get_sample_incidents` (dates relative to the current instant). -/
def sample_incidents (now : ℤ) : List Incident :=
  [⟨"sample_1", "theft", "Downtown Bethesda, MD", 389847/10000, -770947/10000,
    "Bike theft near metro station", "medium", "2 hours ago", now - 7200,
    "sample_data", false, none, none⟩,
   ⟨"sample_2", "suspicious", "Chevy Chase, MD", 389686/10000, -770872/10000,
    "Suspicious activity in parking garage", "low", "5 hours ago", now - 18000,
    "sample_data", false, none, none⟩,
   ⟨"sample_3", "vandalism", "Silver Spring, MD", 389912/10000, -770261/10000,
    "Graffiti on building wall", "low", "1 day ago", now - 86400,
    "sample_data", false, none, none⟩]

/-- `get_recent_incidents`: query the active documents capped at
`limit * 2`, keep those within the trailing window, convert, sort newest
first (stably), fall back to the samples when empty, and truncate to
`limit`. -/
def get_recent_incidents (docs : List FsDoc) (now : ℤ) (limit : ℕ) (hours : ℤ) :
    List Incident :=
  let queried := (docs.filter (fun d => d.status == some "active")).take (limit * 2)
  let threshold := now - hours * 3600
  let incs := queried.filterMap (fun d =>
    let t := d.created_at.getD now
    if threshold ≤ t then some (doc_to_incident now d t) else none)
  let sorted := incs.mergeSort (fun a b => decide (b.date ≤ a.date))
  let final := if sorted.isEmpty then sample_incidents now else sorted
  final.take limit

/-- A stored document whose `severity` value is the unrecognized string
`"weird"`. -/
def stored_doc_weird : FsDoc :=
  ⟨"d1", some "i1", some "theft", some "loc", some 1, some 2, some "desc",
   some "weird", some "user_report", some "active", some 1000, some false, none, none⟩

/-- A stored document with no `severity` field. -/
def stored_doc_missing_severity : FsDoc :=
  ⟨"d2", some "i2", some "theft", some "loc", some 1, some 2, some "desc",
   none, some "user_report", some "active", some 0, some false, none, none⟩

/-!
## Read-path theorems (claim C9)
-/

/-- C9 counterexample.  The read path reports a stored record whose
`severity` value is the unrecognized string `"weird"` with severity
`"weird"` — not `"low"` as the claim requires: `data.get('severity', 'low')`
defaults only a **missing** value, an unrecognized one passes through. -/
theorem read_path_unrecognized_severity_counterexample :
    (get_recent_incidents [stored_doc_weird] 1000 10 1).map Incident.severity =
      ["weird"] ∧
    "weird" ∉ (["low", "medium", "high"] : List String) := by
  constructor
  · have h : get_recent_incidents [stored_doc_weird] 1000 10 1 =
        [doc_to_incident 1000 stored_doc_weird 1000] := by
      unfold get_recent_incidents
      simp [stored_doc_weird, List.mergeSort_singleton]
    rw [h]
    rfl
  · decide

/-- C9 amended.  Every incident returned by the listing read path either
comes from a stored document with severity `d.severity.getD "low"` — i.e.
`"low"` exactly when the stored field is missing, the stored value unchanged
otherwise — or is one of the three built-in sample incidents (whose
severities are valid enum values). -/
theorem read_path_severity_amended (docs : List FsDoc) (now : ℤ) (limit : ℕ)
    (hours : ℤ) (inc : Incident)
    (hmem : inc ∈ get_recent_incidents docs now limit hours) :
    (∃ d ∈ docs, inc.severity = d.severity.getD "low") ∨
    inc ∈ sample_incidents now := by
  unfold get_recent_incidents at hmem
  simp only at hmem
  have hfin := List.mem_of_mem_take hmem
  by_cases hemp :
      (((docs.filter (fun d => d.status == some "active")).take (limit * 2)).filterMap
        (fun d =>
          if now - hours * 3600 ≤ d.created_at.getD now
          then some (doc_to_incident now d (d.created_at.getD now)) else none)).mergeSort
        (fun a b => decide (b.date ≤ a.date)) |>.isEmpty
  · rw [if_pos hemp] at hfin
    exact Or.inr hfin
  · rw [if_neg hemp] at hfin
    left
    have hperm := List.mergeSort_perm
      (((docs.filter (fun d => d.status == some "active")).take (limit * 2)).filterMap
        (fun d =>
          if now - hours * 3600 ≤ d.created_at.getD now
          then some (doc_to_incident now d (d.created_at.getD now)) else none))
      (fun a b => decide (b.date ≤ a.date))
    have hincs := hperm.mem_iff.mp hfin
    obtain ⟨d, hd, hsome⟩ := List.mem_filterMap.mp hincs
    refine ⟨d, List.mem_of_mem_filter (List.mem_of_mem_take hd), ?_⟩
    by_cases ht : now - hours * 3600 ≤ d.created_at.getD now
    · rw [if_pos ht] at hsome
      cases hsome
      rfl
    · rw [if_neg ht] at hsome
      cases hsome

/-- C9 witness: `read_path_severity_amended` at a document with no stored
severity, whose returned incident has severity `"low"`. -/
theorem read_path_severity_amended_witness :
    (∃ d ∈ [stored_doc_missing_severity],
      (doc_to_incident 0 stored_doc_missing_severity 0).severity =
        d.severity.getD "low") ∨
    doc_to_incident 0 stored_doc_missing_severity 0 ∈ sample_incidents 0 := by
  have h : get_recent_incidents [stored_doc_missing_severity] 0 10 1 =
      [doc_to_incident 0 stored_doc_missing_severity 0] := by
    unfold get_recent_incidents
    simp [stored_doc_missing_severity, List.mergeSort_singleton]
  exact read_path_severity_amended [stored_doc_missing_severity] 0 10 1
    (doc_to_incident 0 stored_doc_missing_severity 0)
    (by rw [h]; exact List.mem_singleton.mpr rfl)
